import Mathlib

/-!
Verification of the paginated export pipeline of `nomad-ml-workflows`.

The development shallowly embeds the code of

* `src/nomad_actions/actions/entries/workflows.py` (`ExportEntriesWorkflow.run`),
* `src/nomad_ml_workflows/actions/export_entries/activities.py`
  (`create_artifact_subdirectory`, `search`, `merge_output_files`,
  `export_dataset_to_upload` with its inner `unique_filename`,
  `cleanup_artifacts`),
* `src/nomad_ml_workflows/actions/export_entries/utils.py`
  (`write_json_file`, `merge_files`),

into executable Lean definitions.  Filesystem effects are made explicit:
a writer returns the list of (path, content) pairs it creates, the JSON
merge engine returns the sequence of chunks written to the output path,
and the workflow returns the trace of stages it actually executed.

Records and JSON documents are modelled by the inductive `Json` below;
machine integers do not occur in the modelled code paths.
-/

/-- A JSON value, the record type flowing through the export pipeline. -/
inductive Json where
  | null : Json
  | bool (b : Bool) : Json
  | num (n : Int) : Json
  | str (s : String) : Json
  | arr (elems : List Json) : Json
  | obj (fields : List (String × Json)) : Json

/-- One chunk written to the merged output file: either a raw separator /
bracket string (`f.write(...)` in the source) or one dumped record
(`json.dump(item, f, indent=4)`). -/
inductive Chunk where
  | text (s : String) : Chunk
  | item (j : Json) : Chunk

/-- Embeds `yield from json_stream.load(f)` for one page file: a top-level
array yields its elements in order; a top-level object yields its keys
(Python dict iteration); any other top-level value is not iterable and the
generator raises (`TypeError`), modelled as an error. -/
def streamTopLevel : Json → Except String (List Json)
  | Json.arr elems => Except.ok elems
  | Json.obj fields => Except.ok (fields.map (fun p => Json.str p.1))
  | _ => Except.error "TypeError: object is not iterable"

/-- Embeds the body of the `for item in _json_stream_files(...)` loop of
`merge_files` for one item sequence: a `,\n` separator before every item
except the first ever emitted, then the dumped item. -/
def emitItems : List Json → Bool → List Chunk
  | [], _ => []
  | j :: rest, first_item =>
      (if first_item then [] else [Chunk.text ",\n"]) ++
        Chunk.item j :: emitItems rest false

/-- Embeds the generator `_json_stream_files` interleaved with the emit
loop of the `json` branch of `merge_files`: files are opened in order, a
well-formed file's items are all emitted before the next file is opened,
and a file whose top level is not iterable aborts the loop.  Returns the
outcome together with the chunks written after the opening bracket. -/
def mergeJsonGo : List Json → Bool → Except String Unit × List Chunk
  | [], _ => (Except.ok (), [])
  | f :: rest, first_item =>
      match streamTopLevel f with
      | Except.error e => (Except.error e, [])
      | Except.ok items =>
          let out := emitItems items first_item
          let next := mergeJsonGo rest (first_item && items.isEmpty)
          (next.1, out ++ next.2)

/-- Embeds the `json` branch of `merge_files` in
`export_entries/utils.py`: the output path is opened for writing (so the
file exists as soon as the first chunk is written), `[\n` is written, the
items of all input files are streamed and re-emitted with `,\n`
separators, and `\n]` closes the document on success.  On an error the
chunks already written remain at the output path (the source opens
`output_file_path` directly; there is no temporary file and no rename). -/
def merge_files_json (input_files : List Json) : Except String Unit × List Chunk :=
  let body := mergeJsonGo input_files true
  match body.1 with
  | Except.error e => (Except.error e, Chunk.text "[\n" :: body.2)
  | Except.ok _ => (Except.ok (), Chunk.text "[\n" :: body.2 ++ [Chunk.text "\n]"])

/-- The records dumped into the merged output, in write order. -/
def chunkItems (cs : List Chunk) : List Json :=
  cs.filterMap (fun c => match c with
    | Chunk.item j => some j
    | Chunk.text _ => none)

/-- Embeds Python's `str.endswith(suffix)` as a structural suffix test on
the character lists. -/
def endswith (s sfx : String) : Bool :=
  sfx.data.isSuffixOf s.data

/-- Embeds `write_json_file(path, data)` from `export_entries/utils.py`.
The result is the list of files created: the extension is validated
(`path.endswith('json')`), then `open(path, 'w')` and `json.dump(data, f)`
unconditionally create one file at `path` holding the top-level array
`data` — there is no empty-input check in the writer. -/
def write_json_file (path : String) (data : List Json) :
    Except String (List (String × Json)) :=
  if endswith path "json" then Except.ok [(path, Json.arr data)]
  else Except.error "Unsupported file type. Please use json."

/-- Output of one `search` activity call
(`export_entries/activities.py`), restricted to the fields the workflow
consumes.  `written` is the content handed to the page writer, `none`
when writing was skipped. -/
structure SearchOutput (α : Type) where
  num_entries_exported : Nat
  pagination_next_page_after_value : Option Nat
  written : Option (List α)

/-- Embeds the `search` activity: the backend page `page` is truncated to
the remaining quota (`response.data[:max_entries_export_limit]` when it is
longer, the full page otherwise — both equal `page.take limit`); when the
truncated list is empty the continuation token is forced to `none` and no
file is written, otherwise the truncated list is written to the output
file and the backend token `backend_next` is passed through.  Continuation
tokens are modelled as page indices into the backend's page list. -/
def search (page : List α) (limit : Nat) (backend_next : Option Nat) :
    SearchOutput α :=
  let entry_list := page.take limit
  { num_entries_exported := entry_list.length
    pagination_next_page_after_value :=
      if entry_list.length = 0 then none else backend_next
    written := if entry_list.length = 0 then none else some entry_list }

/-- Embeds the pagination loop of `ExportEntriesWorkflow.run`
(`workflows.py`, the `while True` at lines 68–99) driving `search` over a
backend modelled as the list of pages it would serve in order; the token
returned with a page is the index of the next page, absent at the last
page.  Arguments: remaining pages, remaining quota
(`search_input.max_entries_export_limit`), and the current
`search_counter`.  Returns the per-call exported counts (whose sum is
`total_num_entries_exported`), `reached_max_entries_limit`, and the
sequence numbers of the page files appended to `generated_file_paths`. -/
def runLoop (pages : List (List α)) (remaining : Nat) (counter : Nat) :
    List Nat × Bool × List Nat :=
  match pages with
  | [] =>
      -- the backend has no page at this token: `response.data` is empty
      -- and `next_page_after_value` is absent
      let out := search ([] : List α) remaining none
      ([out.num_entries_exported], decide (remaining = 0), [])
  | page :: rest =>
      let out := search page remaining (if rest.isEmpty then none else some (counter + 1))
      let e := out.num_entries_exported
      let files := if 0 < e then [counter] else []
      if remaining - e = 0 then ([e], true, files)
      else
        match out.pagination_next_page_after_value with
        | none => ([e], false, files)
        | some _ =>
            let tail := runLoop rest (remaining - e) (counter + 1)
            (e :: tail.1, tail.2.1, files ++ tail.2.2)

/-- Embeds `create_artifact_subdirectory`
(`export_entries/activities.py`): the scratch path is
`os.path.join(action_artifacts_dir(), subdir_name)`; the `assert not
os.path.exists(...)` fires before `os.makedirs`, so on a collision the
activity raises and the filesystem (modelled as the list of existing
paths) is returned unchanged; otherwise the new path is created. -/
def create_artifact_subdirectory (fs : List String)
    (artifacts_dir subdir_name : String) : Except String String × List String :=
  let subdir_path := artifacts_dir ++ "/" ++ subdir_name
  if fs.contains subdir_path then
    (Except.error
      ("Artifact subdirectory \"" ++ subdir_path ++ "\" already exists."), fs)
  else (Except.ok subdir_path, subdir_path :: fs)

/-- Embeds `cleanup_artifacts` (`export_entries/activities.py`): remove
the subdirectory when present, succeed silently when absent. -/
def cleanup_artifacts (fs : List String) (subdir_path : String) :
    Except String Unit × List String :=
  (Except.ok (), fs.filter (fun p => p ≠ subdir_path))

/-- The retry policy the workflow attaches to every activity
(`workflows.py` lines 40–45): `RetryPolicy(maximum_attempts=3,
initial_interval=10s, maximum_interval=1min, backoff_coefficient=2.0)`,
with no `non_retryable_error_types`, so every failure kind is retried. -/
structure RetryPolicy where
  maximum_attempts : Nat
  initial_interval_seconds : Nat
  maximum_interval_seconds : Nat
  backoff_coefficient : Nat

/-- The concrete policy constructed in `ExportEntriesWorkflow.run`. -/
def workflow_retry_policy : RetryPolicy :=
  { maximum_attempts := 3
    initial_interval_seconds := 10
    maximum_interval_seconds := 60
    backoff_coefficient := 2 }

/-- Embeds the durable-execution substrate's bounded retry of one
activity: attempts are run in order (the attempt function receives the
zero-based attempt index) until one succeeds or `fuel` attempts have been
made; returns the last result and the number of attempts made. -/
def retryFrom (attempt : Nat → Except String α) (i : Nat) :
    Nat → Except String α × Nat
  | 0 => (Except.error "no attempts permitted", i)
  | fuel + 1 =>
      match attempt i with
      | Except.ok a => (Except.ok a, i + 1)
      | Except.error e =>
          match fuel with
          | 0 => (Except.error e, i + 1)
          | _ + 1 => retryFrom attempt (i + 1) fuel

/-- One activity execution under a retry policy, as the substrate drives
it: up to `policy.maximum_attempts` attempts. -/
def execute_with_retry (policy : RetryPolicy)
    (attempt : Nat → Except String α) : Except String α × Nat :=
  retryFrom attempt 0 policy.maximum_attempts

/-- The stages `ExportEntriesWorkflow.run` can execute, in source
order. -/
inductive Stage where
  | createSubdir : Stage
  | searchLoop : Stage
  | mergeFiles : Stage
  | exportDataset : Stage
  | cleanup : Stage
  deriving DecidableEq, Repr

/-- Terminal outcome of each activity of one run, after the substrate has
exhausted that activity's retries: `ok` or the surfaced error.  The
pagination loop is collapsed to a single outcome since stage sequencing,
not page contents, is at issue here. -/
structure WorkflowEnv where
  createResult : Except String String
  searchResult : Except String Unit
  mergeResult : Except String (Option String)
  exportResult : Except String String
  cleanupResult : Except String Unit
  merge_output_files_requested : Bool

/-- Embeds the stage sequencing of `ExportEntriesWorkflow.run`: the five
`await workflow.execute_activity(...)` calls run strictly in order with no
`try`/`except`/`finally` around any of them, so the first failing
activity's error propagates out of `run` immediately and the remaining
stages are never started.  Returns the run's result and the trace of
stages that were started. -/
def workflowRun (env : WorkflowEnv) : Except String String × List Stage :=
  match env.createResult with
  | Except.error e => (Except.error e, [Stage.createSubdir])
  | Except.ok _ =>
    match env.searchResult with
    | Except.error e => (Except.error e, [Stage.createSubdir, Stage.searchLoop])
    | Except.ok _ =>
      let t := [Stage.createSubdir, Stage.searchLoop] ++
        (if env.merge_output_files_requested then [Stage.mergeFiles] else [])
      match (if env.merge_output_files_requested then env.mergeResult
             else Except.ok none) with
      | Except.error e => (Except.error e, t)
      | Except.ok _ =>
        match env.exportResult with
        | Except.error e => (Except.error e, t ++ [Stage.exportDataset])
        | Except.ok path =>
          match env.cleanupResult with
          | Except.error e =>
              (Except.error e, t ++ [Stage.exportDataset, Stage.cleanup])
          | Except.ok _ =>
              (Except.ok path, t ++ [Stage.exportDataset, Stage.cleanup])

/-- Embeds `os.path.splitext` for plain filenames (no directory
separator, as used here): the extension starts at the last dot, except
that a run of leading dots (as in `.bashrc`) does not start an
extension. -/
def splitext (filename : String) : String × String :=
  let cs := filename.data
  match ((cs.enum.filter (fun p => p.2 = '.')).map (fun p => p.1)).getLast? with
  | none => (filename, "")
  | some i =>
      if (cs.take i).any (fun c => c ≠ '.') then
        (String.mk (cs.take i), String.mk (cs.drop i))
      else (filename, "")

/-- The candidate sequence tried by `unique_filename`
(`export_entries/activities.py` lines 146–157): candidate 0 is the
proposed filename itself, candidate `count ≥ 1` is
`f'{name}({count}){ext}'` with `name, ext = os.path.splitext(filename)`
recomputed from the original filename. -/
def candidate (filename : String) : Nat → String
  | 0 => filename
  | Nat.succ c =>
      (splitext filename).1 ++ "(" ++ toString (Nat.succ c) ++ ")" ++
        (splitext filename).2

/-- The body of the `while True` loop of `unique_filename`, fuelled: try
candidates from index `count` upward, returning the first one for which
the sink's existence check is false, or `none` when the fuel runs out
(the source loop would still be running). -/
def uniqueFilenameGo (filename : String) (raw_path_exists : String → Bool) :
    Nat → Nat → Option String
  | 0, _ => none
  | fuel + 1, count =>
      if raw_path_exists (candidate filename count) then
        uniqueFilenameGo filename raw_path_exists fuel (count + 1)
      else some (candidate filename count)

/-- Embeds `unique_filename(filename, upload_files)`: the proposed name
is returned when the destination's `raw_path_exists` check is false,
otherwise `name(1)ext`, `name(2)ext`, … are tried in order.  The
unbounded `while True` is modelled with explicit fuel; `none` means the
loop had not terminated within `fuel` iterations. -/
def unique_filename (filename : String) (raw_path_exists : String → Bool)
    (fuel : Nat) : Option String :=
  if raw_path_exists filename then
    uniqueFilenameGo filename raw_path_exists fuel 1
  else some filename

/-- Embeds the zip-output naming of `export_dataset_to_upload`
(`export_entries/activities.py` lines 176–189): collision avoidance is
applied to the extension-less `exportable_dir_name`, and `'.zip'` is
appended to the chosen name afterwards (`zipname = exportable_dir_name +
'.zip'`). -/
def export_zip_name (exportable_dir_name : String)
    (raw_path_exists : String → Bool) (fuel : Nat) : Option String :=
  (unique_filename exportable_dir_name raw_path_exists fuel).map
    (fun n => n ++ ".zip")

/-- Embeds the `merge_output_files` activity
(`export_entries/activities.py` lines 111–131): an empty
`generated_file_paths` returns `None` at once; otherwise the merged path
is `os.path.join(artifact_subdirectory, 'merged.' + output_file_type)`,
the merge routine runs on it, and the path is returned on success.  The
merge routine is passed in as `mergeFn`; the boolean of the result
records whether it was invoked. -/
def merge_output_files (artifact_subdirectory output_file_type : String)
    (generated_file_paths : List String)
    (mergeFn : List String → String → Except String Unit) :
    Except String (Option String) × Bool :=
  if generated_file_paths.isEmpty then (Except.ok none, false)
  else
    let merged_file_path :=
      artifact_subdirectory ++ "/" ++ ("merged." ++ output_file_type)
    match mergeFn generated_file_paths merged_file_path with
    | Except.error e => (Except.error e, true)
    | Except.ok _ => (Except.ok (some merged_file_path), true)

/-! ## Helper lemmas -/

theorem emitItems_append (a b : List Json) (f : Bool) :
    emitItems (a ++ b) f = emitItems a f ++ emitItems b (f && a.isEmpty) := by
  induction a generalizing f with
  | nil => simp [emitItems]
  | cons x xs ih =>
      have h := ih false
      simp only [Bool.false_and] at h
      simp only [List.cons_append, emitItems, List.isEmpty_cons, Bool.and_false]
      rw [List.append_assoc]
      exact congrArg _ (congrArg _ h)

theorem mergeJsonGo_arrs (pages : List (List Json)) (f : Bool) :
    mergeJsonGo (pages.map Json.arr) f = (Except.ok (), emitItems pages.flatten f) := by
  induction pages generalizing f with
  | nil => simp [mergeJsonGo, emitItems]
  | cons p ps ih =>
      simp only [List.map_cons, mergeJsonGo, streamTopLevel, ih, List.flatten_cons,
        emitItems_append]

theorem chunkItems_emitItems (items : List Json) (f : Bool) :
    chunkItems (emitItems items f) = items := by
  induction items generalizing f with
  | nil => simp [emitItems, chunkItems]
  | cons j rest ih =>
      cases f <;> simp [emitItems, chunkItems, List.filterMap_append] <;>
        simpa [chunkItems] using ih false

theorem mergeJsonGo_append_bad (pages : List (List Json)) (bad : Json)
    (e : String) (f : Bool) (h : streamTopLevel bad = Except.error e) :
    mergeJsonGo (pages.map Json.arr ++ [bad]) f =
      (Except.error e, emitItems pages.flatten f) := by
  induction pages generalizing f with
  | nil => simp [mergeJsonGo, h, emitItems]
  | cons p ps ih =>
      have h2 := ih (f && p.isEmpty)
      simp only [List.map_cons, List.cons_append, mergeJsonGo, streamTopLevel,
        List.flatten_cons, emitItems_append]
      rw [show (List.map Json.arr ps).append [bad] = List.map Json.arr ps ++ [bad]
        from rfl, h2]

/-! ## C2: JSON consolidation concatenates pages into one array -/

/-- C2: for every ordered list of JSON page files each holding a
top-level array of records, `merge_files` with output type `json`
succeeds and writes exactly one top-level array (`[\n`, the dumped
records, `\n]`) whose records are the concatenation of the pages'
records in page order, so the output record count is the sum of the page
sizes. -/
theorem merge_json_concatenates (pages : List (List Json)) :
    merge_files_json (pages.map Json.arr) =
      (Except.ok (),
        Chunk.text "[\n" :: emitItems pages.flatten true ++ [Chunk.text "\n]"]) ∧
    chunkItems (merge_files_json (pages.map Json.arr)).2 = pages.flatten ∧
    (chunkItems (merge_files_json (pages.map Json.arr)).2).length =
      (pages.map List.length).sum := by
  have hgo := mergeJsonGo_arrs pages true
  have hfull : merge_files_json (pages.map Json.arr) =
      (Except.ok (),
        Chunk.text "[\n" :: emitItems pages.flatten true ++ [Chunk.text "\n]"]) := by
    simp [merge_files_json, hgo]
  refine ⟨hfull, ?_, ?_⟩
  · rw [hfull]
    simp [chunkItems, List.filterMap_append]
    simpa [chunkItems] using chunkItems_emitItems pages.flatten true
  · rw [hfull]
    have := chunkItems_emitItems pages.flatten true
    simp [chunkItems, List.filterMap_append]
    simpa [chunkItems, List.length_flatten] using congrArg List.length this

/-! ## C6: abort during consolidation leaves a partial output file -/

/-- C6 counterexample: merging a well-formed page `[null]` followed by a
malformed page (top-level number) aborts with an error, yet the output
path now holds a partial document — the opening bracket and the already
emitted record — so a partial output file does exist at the output path,
contrary to the claim that the merge writes to a temporary path and
renames only on success. -/
theorem merge_json_abort_leaves_partial_file :
    (merge_files_json [Json.arr [Json.null], Json.num 0]).1 =
      Except.error "TypeError: object is not iterable" ∧
    (merge_files_json [Json.arr [Json.null], Json.num 0]).2 =
      [Chunk.text "[\n", Chunk.item Json.null] ∧
    [Chunk.text "[\n", Chunk.item Json.null] ≠ ([] : List Chunk) := by
  refine ⟨rfl, rfl, by simp⟩

/-- C6 amended: `merge_files` writes the merged document directly at the
output path (no temporary file, no rename), so when a malformed page
file aborts consolidation the error is reported, and the output path is
left holding the partially written document: the opening bracket and all
records of the pages already streamed. -/
theorem merge_json_abort_partial_content (pages : List (List Json))
    (bad : Json) (e : String) (h : streamTopLevel bad = Except.error e) :
    (merge_files_json (pages.map Json.arr ++ [bad])).1 = Except.error e ∧
    (merge_files_json (pages.map Json.arr ++ [bad])).2 =
      Chunk.text "[\n" :: emitItems pages.flatten true := by
  have hgo := mergeJsonGo_append_bad pages bad e true h
  constructor <;> simp [merge_files_json, hgo]

/-- Witness for `merge_json_abort_partial_content` at a concrete input. -/
theorem merge_json_abort_partial_content_witness :
    (merge_files_json ([[Json.null]].map Json.arr ++ [Json.num 0])).1 =
      Except.error "TypeError: object is not iterable" ∧
    (merge_files_json ([[Json.null]].map Json.arr ++ [Json.num 0])).2 =
      Chunk.text "[\n" :: emitItems ([[Json.null]] : List (List Json)).flatten true :=
  merge_json_abort_partial_content [[Json.null]] (Json.num 0)
    "TypeError: object is not iterable" rfl

/-! ## C7: writers create a file even for an empty record list -/

/-- C7 counterexample: `write_json_file` called with an empty record
list and a matching extension is not a no-op — it creates one file at
the path, holding the empty top-level array (the analogous csv and
parquet writers likewise create header-only / schema-only files): the
writers contain no empty-input check. -/
theorem write_json_empty_creates_file :
    write_json_file "out.json" ([] : List Json) =
      Except.ok [("out.json", Json.arr [])] ∧
    [("out.json", Json.arr [])] ≠ ([] : List (String × Json)) := by
  refine ⟨by simp [write_json_file, endswith, List.isSuffixOf], by simp⟩

/-- C7 amended: the page writers unconditionally create a file at the
target path (the JSON writer writes an empty top-level array for an
empty record list); the pipeline's no-empty-page-file guarantee is
enforced by the caller instead: the `search` activity skips the writer
call whenever the truncated entry list is empty. -/
theorem write_empty_skipped_by_search (path : String)
    (h : endswith path "json" = true) :
    write_json_file path ([] : List Json) = Except.ok [(path, Json.arr [])] ∧
    (∀ (limit : Nat) (tok : Option Nat),
      (search ([] : List Json) limit tok).written = none) := by
  refine ⟨by simp [write_json_file, h], ?_⟩
  intro limit tok
  simp [search]

/-- Witness for `write_empty_skipped_by_search` at a concrete path. -/
theorem write_empty_skipped_by_search_witness :
    write_json_file "1.json" ([] : List Json) =
      Except.ok [("1.json", Json.arr [])] ∧
    (∀ (limit : Nat) (tok : Option Nat),
      (search ([] : List Json) limit tok).written = none) :=
  write_empty_skipped_by_search "1.json" (by decide)

theorem runLoop_counts {α : Type} (pages : List (List α)) :
    ∀ (M c : Nat), (∀ p ∈ pages, p ≠ []) →
      ((runLoop pages M c).1.sum = min ((pages.map List.length).sum) M ∧
        ((runLoop pages M c).2.1 = true ↔
          min ((pages.map List.length).sum) M = M)) := by
  induction pages with
  | nil =>
      intro M c _
      simp only [runLoop, search, List.take_nil, List.length_nil, List.map_nil,
        List.sum_cons, List.sum_nil, decide_eq_true_eq]
      constructor
      · omega
      · omega
  | cons p rest ih =>
      intro M c h
      have hp : p ≠ [] := h p (List.mem_cons_self p rest)
      have hlen : 0 < p.length := List.length_pos.mpr hp
      by_cases hMm : M ≤ p.length
      · have hmin : min M p.length = M := Nat.min_eq_left hMm
        have hrun : runLoop (p :: rest) M c =
            ([M], true, if 0 < M then [c] else []) := by
          simp [runLoop, search, List.length_take, hmin]
        refine ⟨?_, ?_⟩ <;> simp [hrun] <;> omega
      · push_neg at hMm
        have hmin : min M p.length = p.length := Nat.min_eq_right (le_of_lt hMm)
        have hne : ¬ (p.length = 0) := by omega
        have hsub : ¬ (M - p.length = 0) := by omega
        by_cases hre : rest.isEmpty
        · have hrest : rest = [] := List.isEmpty_iff.mp hre
          subst hrest
          have hrun : runLoop [p] M c =
              ([p.length], false, if 0 < p.length then [c] else []) := by
            simp [runLoop, search, List.length_take, hmin, hne, hsub]
          refine ⟨?_, ?_⟩ <;> simp [hrun] <;> omega
        · obtain ⟨ih1, ih2⟩ := ih (M - p.length) (c + 1)
            (fun q hq => h q (List.mem_cons_of_mem p hq))
          have hrun : runLoop (p :: rest) M c =
              (p.length :: (runLoop rest (M - p.length) (c + 1)).1,
                (runLoop rest (M - p.length) (c + 1)).2.1,
                (if 0 < p.length then [c] else []) ++
                  (runLoop rest (M - p.length) (c + 1)).2.2) := by
            simp only [runLoop, search, List.length_take, hmin, if_neg hne,
              if_neg hsub, if_neg hre]
          refine ⟨?_, ?_⟩
          · rw [hrun]
            simp only [List.sum_cons, List.map_cons, ih1]
            omega
          · rw [hrun]
            simp only [List.map_cons, List.sum_cons]
            rw [ih2]
            omega

/-! ## C1: total exported equals min(total available, max entries) -/

/-- C1: for a run with max entries limit `M` against a backend serving
its `T` matching records as the (non-empty) pages of `pages`, the
pagination loop of `ExportEntriesWorkflow.run` accumulates per-page
exported counts summing to `min T M`, and `reached_max_entries_limit` is
true exactly when that minimum is `M`; moreover every page the `search`
activity writes is the backend page truncated to the remaining quota. -/
theorem export_total_min {α : Type} (pages : List (List α)) (M : Nat)
    (h : ∀ p ∈ pages, p ≠ []) :
    ((runLoop pages M 1).1.sum = min ((pages.map List.length).sum) M ∧
      ((runLoop pages M 1).2.1 = true ↔
        min ((pages.map List.length).sum) M = M)) ∧
    (∀ (page : List α) (limit : Nat) (tok : Option Nat) (w : List α),
      (search page limit tok).written = some w →
        w = page.take limit ∧ w.length ≤ limit) := by
  refine ⟨runLoop_counts pages M 1 h, ?_⟩
  intro page limit tok w hw
  simp only [search] at hw
  by_cases hz : (page.take limit).length = 0
  · simp [hz] at hw
  · simp only [if_neg hz, Option.some.injEq] at hw
    subst hw
    exact ⟨rfl, by simp [List.length_take]⟩

/-- Witness for `export_total_min`: backend `[[1,2,3],[4,5]]` (five
records) with limit four exports four records and reaches the limit. -/
theorem export_total_min_witness :
    (((runLoop ([[1, 2, 3], [4, 5]] : List (List Nat)) 4 1).1.sum =
        min ((([[1, 2, 3], [4, 5]] : List (List Nat)).map List.length).sum) 4 ∧
      ((runLoop ([[1, 2, 3], [4, 5]] : List (List Nat)) 4 1).2.1 = true ↔
        min ((([[1, 2, 3], [4, 5]] : List (List Nat)).map List.length).sum) 4 = 4)) ∧
    (∀ (page : List Nat) (limit : Nat) (tok : Option Nat) (w : List Nat),
      (search page limit tok).written = some w →
        w = page.take limit ∧ w.length ≤ limit)) :=
  export_total_min [[1, 2, 3], [4, 5]] 4 (by simp)

theorem runLoop_files {α : Type} (pages : List (List α)) :
    ∀ (M c : Nat),
      (runLoop pages M c).2.2 =
        List.range' c ((runLoop pages M c).1.countP (fun e => decide (0 < e))) := by
  induction pages with
  | nil =>
      intro M c
      simp [runLoop, search, List.countP_cons]
  | cons p rest ih =>
      intro M c
      by_cases hz : (p.take M).length = 0
      · simp only [runLoop, search, hz]
        simp [List.countP_cons]
        by_cases hM0 : M = 0 <;> simp [hM0]
      · have hz' : ¬ (M ⊓ p.length = 0) := by
          simpa [List.length_take] using hz
        have hmin : 0 < M ⊓ p.length := Nat.pos_of_ne_zero hz'
        have hpos : 0 < M ∧ 0 < p.length := lt_min_iff.mp hmin
        by_cases hM : M - (p.take M).length = 0
        · have hM' : M - M ⊓ p.length = 0 := by
            simpa [List.length_take] using hM
          simp [runLoop, search, hz, hM', hpos.1, hpos.2, List.countP_cons,
            hmin, List.range'_one]
        · have hM' : ¬ (M - M ⊓ p.length = 0) := by
            simpa [List.length_take] using hM
          by_cases hre : rest.isEmpty
          · simp [runLoop, search, hz, hM', hre, hpos.1, hpos.2,
              List.countP_cons, hmin, List.range'_one]
          · have htail := ih (M - (p.take M).length) (c + 1)
            rw [List.length_take] at htail
            simp [runLoop, search, hz, hM', hre, hpos.1, hpos.2,
              List.countP_cons, hmin, htail]
            rw [if_neg hz]
            simp [List.countP_cons, hmin]
            rw [List.range'_succ]

/-! ## C8: page file sequence numbers are gapless from 1 -/

/-- C8: in every run the page files created by the pagination loop carry
exactly the sequence numbers `1..k` (strictly increasing, gapless,
starting at 1), where `k` is the number of `search` calls that exported
at least one record; and a `search` call whose page holds zero records
reports no continuation token (terminating the loop) and writes no page
file, so no gap can appear. -/
theorem page_files_gapless {α : Type} (pages : List (List α)) (M : Nat) :
    (∃ k, (runLoop pages M 1).2.2 = List.range' 1 k ∧
      k = (runLoop pages M 1).1.countP (fun e => decide (0 < e))) ∧
    (∀ (limit : Nat) (tok : Option Nat),
      (search ([] : List α) limit tok).pagination_next_page_after_value = none ∧
      (search ([] : List α) limit tok).written = none) := by
  refine ⟨⟨_, runLoop_files pages M 1, rfl⟩, ?_⟩
  intro limit tok
  simp [search]

/-! ## C3: cleanup is not attempted after an earlier terminal failure -/

/-- C3 counterexample: a run whose packaging stage fails terminally
(create, search and merge settings all fine) propagates the packaging
error as the run's result, and the cleanup stage never appears in the
executed-stage trace — `ExportEntriesWorkflow.run` has no
`try`/`finally`, so cleanup is not attempted after a prior failure,
contrary to the claim. -/
theorem cleanup_skipped_after_export_failure :
    (workflowRun
      { createResult := Except.ok "subdir"
        searchResult := Except.ok ()
        mergeResult := Except.ok none
        exportResult := Except.error "DeliveryFailed: upload not found"
        cleanupResult := Except.ok ()
        merge_output_files_requested := false }).1 =
      Except.error "DeliveryFailed: upload not found" ∧
    Stage.cleanup ∉ (workflowRun
      { createResult := Except.ok "subdir"
        searchResult := Except.ok ()
        mergeResult := Except.ok none
        exportResult := Except.error "DeliveryFailed: upload not found"
        cleanupResult := Except.ok ()
        merge_output_files_requested := false }).2 := by
  refine ⟨rfl, by simp [workflowRun]⟩

/-- C3 amended: when any stage before cleanup fails terminally the
workflow raises at that point — the failing stage's error is the run's
reported result (so a cleanup failure cannot mask it), but the cleanup
stage is NOT attempted; cleanup runs exactly when every prior stage
succeeded, and in that case a failure of cleanup itself surfaces as the
run's error. -/
theorem cleanup_only_after_success :
    (∀ (env : WorkflowEnv) (e : String),
      env.createResult = Except.error e →
      (workflowRun env).1 = Except.error e ∧
        Stage.cleanup ∉ (workflowRun env).2) ∧
    (∀ (env : WorkflowEnv) (p e : String),
      env.createResult = Except.ok p →
      env.searchResult = Except.error e →
      (workflowRun env).1 = Except.error e ∧
        Stage.cleanup ∉ (workflowRun env).2) ∧
    (∀ (env : WorkflowEnv) (p e : String),
      env.createResult = Except.ok p →
      env.searchResult = Except.ok () →
      env.merge_output_files_requested = true →
      env.mergeResult = Except.error e →
      (workflowRun env).1 = Except.error e ∧
        Stage.cleanup ∉ (workflowRun env).2) ∧
    (∀ (env : WorkflowEnv) (p e : String),
      env.createResult = Except.ok p →
      env.searchResult = Except.ok () →
      (env.merge_output_files_requested = true →
        ∃ v, env.mergeResult = Except.ok v) →
      env.exportResult = Except.error e →
      (workflowRun env).1 = Except.error e ∧
        Stage.cleanup ∉ (workflowRun env).2) ∧
    (∀ (env : WorkflowEnv) (p q e : String),
      env.createResult = Except.ok p →
      env.searchResult = Except.ok () →
      (env.merge_output_files_requested = true →
        ∃ v, env.mergeResult = Except.ok v) →
      env.exportResult = Except.ok q →
      env.cleanupResult = Except.error e →
      (workflowRun env).1 = Except.error e) ∧
    (∀ (env : WorkflowEnv),
      Stage.cleanup ∈ (workflowRun env).2 ↔
        ((∃ p, env.createResult = Except.ok p) ∧
          (∃ u, env.searchResult = Except.ok u) ∧
          (env.merge_output_files_requested = true →
            ∃ v, env.mergeResult = Except.ok v) ∧
          ∃ q, env.exportResult = Except.ok q)) := by
  refine ⟨?_, ?_, ?_, ?_, ?_, ?_⟩
  · intro env e h
    simp [workflowRun, h]
  · intro env p e hc hs
    simp [workflowRun, hc, hs]
  · intro env p e hc hs hb hm
    simp [workflowRun, hc, hs, hb, hm]
  · intro env p e hc hs hm he
    by_cases hb : env.merge_output_files_requested = true
    · obtain ⟨v, hv⟩ := hm hb
      simp [workflowRun, hc, hs, hb, hv, he]
    · simp [workflowRun, hc, hs, hb, he]
  · intro env p q e hc hs hm he hcl
    by_cases hb : env.merge_output_files_requested = true
    · obtain ⟨v, hv⟩ := hm hb
      simp [workflowRun, hc, hs, hb, hv, he, hcl]
    · simp [workflowRun, hc, hs, hb, he, hcl]
  · intro env
    obtain ⟨cr, sr, mr, er, clr, b⟩ := env
    cases cr <;> cases sr <;> cases b <;> cases er <;> cases mr <;>
      cases clr <;> simp [workflowRun]

/-- Witness for `cleanup_only_after_success`: concrete runs failing at
each stage, one failing only at cleanup, and one fully successful. -/
theorem cleanup_only_after_success_witness :
    ((workflowRun
      { createResult := Except.error "ce"
        searchResult := Except.ok ()
        mergeResult := Except.ok none
        exportResult := Except.ok "x"
        cleanupResult := Except.ok ()
        merge_output_files_requested := false }).1 = Except.error "ce" ∧
      Stage.cleanup ∉ (workflowRun
        { createResult := Except.error "ce"
          searchResult := Except.ok ()
          mergeResult := Except.ok none
          exportResult := Except.ok "x"
          cleanupResult := Except.ok ()
          merge_output_files_requested := false }).2) ∧
    ((workflowRun
      { createResult := Except.ok "s"
        searchResult := Except.error "se"
        mergeResult := Except.ok none
        exportResult := Except.ok "x"
        cleanupResult := Except.ok ()
        merge_output_files_requested := false }).1 = Except.error "se" ∧
      Stage.cleanup ∉ (workflowRun
        { createResult := Except.ok "s"
          searchResult := Except.error "se"
          mergeResult := Except.ok none
          exportResult := Except.ok "x"
          cleanupResult := Except.ok ()
          merge_output_files_requested := false }).2) ∧
    ((workflowRun
      { createResult := Except.ok "s"
        searchResult := Except.ok ()
        mergeResult := Except.error "me"
        exportResult := Except.ok "x"
        cleanupResult := Except.ok ()
        merge_output_files_requested := true }).1 = Except.error "me" ∧
      Stage.cleanup ∉ (workflowRun
        { createResult := Except.ok "s"
          searchResult := Except.ok ()
          mergeResult := Except.error "me"
          exportResult := Except.ok "x"
          cleanupResult := Except.ok ()
          merge_output_files_requested := true }).2) ∧
    ((workflowRun
      { createResult := Except.ok "s"
        searchResult := Except.ok ()
        mergeResult := Except.ok (some "m")
        exportResult := Except.error "ee"
        cleanupResult := Except.ok ()
        merge_output_files_requested := true }).1 = Except.error "ee" ∧
      Stage.cleanup ∉ (workflowRun
        { createResult := Except.ok "s"
          searchResult := Except.ok ()
          mergeResult := Except.ok (some "m")
          exportResult := Except.error "ee"
          cleanupResult := Except.ok ()
          merge_output_files_requested := true }).2) ∧
    (workflowRun
      { createResult := Except.ok "s"
        searchResult := Except.ok ()
        mergeResult := Except.ok none
        exportResult := Except.ok "x"
        cleanupResult := Except.error "cle"
        merge_output_files_requested := false }).1 = Except.error "cle" ∧
    Stage.cleanup ∈ (workflowRun
      { createResult := Except.ok "s"
        searchResult := Except.ok ()
        mergeResult := Except.ok none
        exportResult := Except.ok "x"
        cleanupResult := Except.ok ()
        merge_output_files_requested := false }).2 :=
  ⟨cleanup_only_after_success.1 _ "ce" rfl,
    cleanup_only_after_success.2.1 _ "s" "se" rfl rfl,
    cleanup_only_after_success.2.2.1 _ "s" "me" rfl rfl rfl rfl,
    cleanup_only_after_success.2.2.2.1 _ "s" "ee" rfl rfl
      (fun _ => ⟨some "m", rfl⟩) rfl,
    cleanup_only_after_success.2.2.2.2.1 _ "s" "x" "cle" rfl rfl
      (fun h => Bool.noConfusion h) rfl rfl,
    (cleanup_only_after_success.2.2.2.2.2 _).mpr
      ⟨⟨"s", rfl⟩, ⟨(), rfl⟩, fun h => Bool.noConfusion h, "x", rfl⟩⟩

/-! ## C5: subdirectory collision is fatal but still retried -/

/-- C5 counterexample: with the scratch path already present, every
attempt of `create_artifact_subdirectory` fails with the collision
error, and the substrate — driven by the one retry policy the workflow
attaches to all activities, which names no non-retryable error types —
makes 3 attempts, not 1: the collision IS retried, contrary to the
claim that this failure is not retried. -/
theorem create_subdir_collision_retried :
    execute_with_retry workflow_retry_policy
      (fun _ =>
        (create_artifact_subdirectory ["artifacts/run-1"] "artifacts" "run-1").1) =
      (Except.error "Artifact subdirectory \"artifacts/run-1\" already exists.",
        3) ∧
    (3 : Nat) ≠ 1 := by
  refine ⟨rfl, by simp⟩

/-- C5 amended: when the scratch path already exists the stage raises
the collision error and creates or modifies nothing (the assertion fires
before `os.makedirs`); the failure is fatal in that no retry can
succeed, but the stage is still retried under the workflow's uniform
bounded policy — 3 attempts, the same as transient failures — before the
error surfaces. -/
theorem create_subdir_collision_fatal (fs : List String) (dir name : String)
    (h : fs.contains (dir ++ "/" ++ name) = true) :
    (create_artifact_subdirectory fs dir name).1 =
      Except.error
        ("Artifact subdirectory \"" ++ (dir ++ "/" ++ name) ++
          "\" already exists.") ∧
    (create_artifact_subdirectory fs dir name).2 = fs ∧
    execute_with_retry workflow_retry_policy
      (fun _ => (create_artifact_subdirectory fs dir name).1) =
      (Except.error
        ("Artifact subdirectory \"" ++ (dir ++ "/" ++ name) ++
          "\" already exists."), workflow_retry_policy.maximum_attempts) ∧
    workflow_retry_policy.maximum_attempts = 3 := by
  have hc : create_artifact_subdirectory fs dir name =
      (Except.error
        ("Artifact subdirectory \"" ++ (dir ++ "/" ++ name) ++
          "\" already exists."), fs) := by
    have hmem : dir ++ "/" ++ name ∈ fs := by simpa using h
    simp [create_artifact_subdirectory, h, hmem]
  refine ⟨by rw [hc], by rw [hc], ?_, rfl⟩
  simp [execute_with_retry, workflow_retry_policy, retryFrom, hc]

/-- Witness for `create_subdir_collision_fatal` at a concrete
filesystem. -/
theorem create_subdir_collision_fatal_witness :
    (create_artifact_subdirectory ["a/b"] "a" "b").1 =
      Except.error
        ("Artifact subdirectory \"" ++ ("a" ++ "/" ++ "b") ++
          "\" already exists.") ∧
    (create_artifact_subdirectory ["a/b"] "a" "b").2 = ["a/b"] ∧
    execute_with_retry workflow_retry_policy
      (fun _ => (create_artifact_subdirectory ["a/b"] "a" "b").1) =
      (Except.error
        ("Artifact subdirectory \"" ++ ("a" ++ "/" ++ "b") ++
          "\" already exists."), workflow_retry_policy.maximum_attempts) ∧
    workflow_retry_policy.maximum_attempts = 3 :=
  create_subdir_collision_fatal ["a/b"] "a" "b" (by decide)

/-! ## C4: collision avoidance is applied to the directory name, not the
zip name -/

/-- C4 counterexample: with the destination already containing
`export.zip` and the proposed package name `export`, the packaging stage
checks `export` (free), so the delivered archive is named `export.zip` —
which collides with the existing file — and not `export(1).zip` as the
claim requires. -/
theorem export_zip_collision_not_avoided :
    export_zip_name "export"
      (fun s => (["export.zip"] : List String).contains s) 1 =
      some "export.zip" ∧
    (["export.zip"] : List String).contains "export.zip" = true ∧
    "export.zip" ≠ "export(1).zip" := by
  refine ⟨rfl, rfl, by decide⟩

/-- C4 amended: `unique_filename` appends `(1)`, `(2)`, … before the
extension of the name it is given (a destination holding `export.zip`
turns the proposed filename `export.zip` into `export(1).zip`); for zip
packaging, however, the collision check is applied to the extension-less
directory name and `.zip` is appended afterwards, so a destination
holding only `export.zip` still delivers `export.zip`, while a
destination holding `export` delivers `export(1).zip` and one holding
`export` and `export(1)` delivers `export(2).zip`. -/
theorem export_zip_naming_behavior :
    unique_filename "export.zip"
      (fun s => (["export.zip"] : List String).contains s) 2 =
      some "export(1).zip" ∧
    export_zip_name "export"
      (fun s => (["export.zip"] : List String).contains s) 1 =
      some "export.zip" ∧
    export_zip_name "export"
      (fun s => (["export"] : List String).contains s) 2 =
      some "export(1).zip" ∧
    export_zip_name "export"
      (fun s => (["export", "export(1)"] : List String).contains s) 3 =
      some "export(2).zip" := by
  refine ⟨rfl, rfl, rfl, rfl⟩

/-! ## C9: merge activity skips empty page lists -/

/-- C9: the `merge_output_files` activity returns `None` for an empty
`generated_file_paths` without invoking the merge routine (so no merged
file is created), and for a non-empty list on which the merge routine
succeeds it returns the merged file's path inside the artifact
subdirectory. -/
theorem merge_activity_empty_skip (sub ft : String) (paths : List String)
    (mergeFn : List String → String → Except String Unit) :
    (paths = [] →
      merge_output_files sub ft paths mergeFn = (Except.ok none, false)) ∧
    (paths ≠ [] →
      mergeFn paths (sub ++ "/" ++ ("merged." ++ ft)) = Except.ok () →
      merge_output_files sub ft paths mergeFn =
        (Except.ok (some (sub ++ "/" ++ ("merged." ++ ft))), true)) := by
  constructor
  · intro hp
    subst hp
    simp [merge_output_files]
  · intro hp hm
    simp [merge_output_files, List.isEmpty_iff, hp, hm]

/-- Witness for `merge_activity_empty_skip` at concrete inputs. -/
theorem merge_activity_empty_skip_witness :
    merge_output_files "dir" "json" [] (fun _ _ => Except.ok ()) =
      (Except.ok none, false) ∧
    merge_output_files "dir" "json" ["dir/1.json"] (fun _ _ => Except.ok ()) =
      (Except.ok (some ("dir" ++ "/" ++ ("merged." ++ "json"))), true) :=
  ⟨(merge_activity_empty_skip "dir" "json" [] (fun _ _ => Except.ok ())).1 rfl,
    (merge_activity_empty_skip "dir" "json" ["dir/1.json"]
      (fun _ _ => Except.ok ())).2 (by simp) rfl⟩

/-! ## C10: unique_filename terminates and returns the first free name -/

theorem uniqueFilenameGo_finds (filename : String) (check : String → Bool)
    (k0 : Nat) (hk : check (candidate filename k0) = false)
    (hmin : ∀ j, j < k0 → check (candidate filename j) = true) :
    ∀ (fuel : Nat), ∀ (c : Nat), c ≤ k0 → k0 < c + fuel →
      uniqueFilenameGo filename check fuel c = some (candidate filename k0) := by
  intro fuel
  induction fuel with
  | zero => intro c hc hlt; omega
  | succ f ihf =>
      intro c hc hlt
      by_cases hck : c = k0
      · subst hck
        simp [uniqueFilenameGo, hk]
      · have hlt' : c < k0 := lt_of_le_of_ne hc hck
        have hcc := hmin c hlt'
        simp only [uniqueFilenameGo, hcc, if_pos]
        exact ihf (c + 1) hlt' (by omega)

/-- C10: whenever some candidate in the sequence `filename`,
`name(1)ext`, `name(2)ext`, … is absent from the destination,
`unique_filename` terminates (some fuel suffices for the `while True`
loop) and returns the first candidate whose existence check is false —
in particular the returned name does not collide with any existing name
at check time. -/
theorem unique_filename_first_free (filename : String) (check : String → Bool)
    (h : ∃ k, check (candidate filename k) = false) :
    ∃ fuel r, unique_filename filename check fuel = some r ∧
      check r = false ∧
      ∃ k, r = candidate filename k ∧
        ∀ j, j < k → check (candidate filename j) = true := by
  by_cases h0 : check filename = true
  · have hk : check (candidate filename (Nat.find h)) = false := Nat.find_spec h
    have hmin : ∀ j, j < Nat.find h → check (candidate filename j) = true := by
      intro j hj
      have hnot := Nat.find_min h hj
      simpa using hnot
    have hk0pos : 1 ≤ Nat.find h := by
      rcases Nat.eq_zero_or_pos (Nat.find h) with h0' | h1
      · exfalso
        rw [h0'] at hk
        rw [show candidate filename 0 = filename from rfl, h0] at hk
        simp at hk
      · exact h1
    refine ⟨Nat.find h, candidate filename (Nat.find h), ?_, hk,
      Nat.find h, rfl, hmin⟩
    simp only [unique_filename, h0, if_pos]
    exact uniqueFilenameGo_finds filename check (Nat.find h) hk hmin
      (Nat.find h) 1 hk0pos (by omega)
  · have h0' : check filename = false := by
      cases hc : check filename
      · rfl
      · exact absurd hc h0
    refine ⟨0, filename, ?_, h0', 0, rfl, by omega⟩
    simp [unique_filename, h0']

/-- Witness for `unique_filename_first_free`: a destination holding only
`export.zip` has the free candidate `export(1).zip`. -/
theorem unique_filename_first_free_witness :
    ∃ fuel r,
      unique_filename "export.zip"
        (fun s => (["export.zip"] : List String).contains s) fuel = some r ∧
      (fun s => (["export.zip"] : List String).contains s) r = false ∧
      ∃ k, r = candidate "export.zip" k ∧
        ∀ j, j < k →
          (fun s => (["export.zip"] : List String).contains s)
            (candidate "export.zip" j) = true :=
  unique_filename_first_free "export.zip"
    (fun s => (["export.zip"] : List String).contains s) ⟨1, by decide⟩
